import Mathlib

/-
Verification of the inventory/sales engine (services.py + repository.py)
of the PythonFlemme repository, as a shallow embedding.

Modelling conventions:
- Python floats are idealised as rationals (ℚ); `round(x, 2)` becomes
  `round2`, rounding half to even as Python does.
- The SQLite database is a `DB` record: a list of product rows, a list of
  sale rows and the autoincrement counter for product ids.
- Exceptions become a `Res` result type carrying an `Err` with a `kind`
  mirroring the exception classes of exceptions.py:
  ValidationError ↦ .validation, NotFoundError ↦ .notFound,
  StockError ↦ .stock, DataImportError ↦ .dataImport,
  DatabaseError ↦ .database. `.nameError` models a Python NameError
  (an undefined identifier evaluated at runtime).
- `now_iso()` is impure, so the current timestamp is passed as a `now`
  argument.
- Storage faults inside the sale transaction are modelled by an optional
  `Fault` argument naming the statement that fails; a fault triggers a
  rollback of the uncommitted pending state.
-/

set_option autoImplicit false

/-- Round a rational to the nearest integer, ties to even
(the semantics of Python builtin `round` on exact values). -/
def roundHalfEven (x : ℚ) : ℤ :=
  let n : ℤ := Int.floor x
  let r : ℚ := x - n
  if r < 1/2 then n
  else if 1/2 < r then n + 1
  else if n % 2 = 0 then n else n + 1

/-- Python `round(x, 2)`: round to 2 decimal places, ties to even. -/
def round2 (x : ℚ) : ℚ := (roundHalfEven (x * 100) : ℚ) / 100

/-- Row of the `products` table / models.Product. -/
structure Product where
  sku : String
  name : String
  category : String
  unit_price_ht : ℚ
  quantity : ℤ
  vat_rate : ℚ := 1/5
  id : Option ℤ := none
  created_at : Option String := none
deriving Repr, DecidableEq

/-- Row of the `sales` table / models.Sale. -/
structure Sale where
  product_id : Option ℤ
  sku : String
  quantity : ℤ
  unit_price_ht : ℚ
  vat_rate : ℚ
  total_ht : ℚ
  total_vat : ℚ
  total_ttc : ℚ
  sold_at : String
deriving Repr, DecidableEq

/-- The SQLite database state: both tables plus the autoincrement counter
for `products.id`. -/
structure DB where
  products : List Product
  sales : List Sale
  nextProductId : ℤ := 1
deriving Repr, DecidableEq

/-- config.AppConfig: the configured default VAT rate is 0.20. -/
structure AppConfig where
  db_path : String
  default_vat_rate : ℚ := 1/5
deriving Repr, DecidableEq

/-- Exception classes of exceptions.py, plus `.nameError` for a Python
NameError raised by evaluating an undefined identifier. -/
inductive ErrKind where
  | validation
  | notFound
  | stock
  | dataImport
  | database
  | nameError
deriving Repr, DecidableEq

/-- A raised exception: its kind (class) and message. -/
structure Err where
  kind : ErrKind
  msg : String
deriving Repr, DecidableEq

/-- Outcome of an operation: a returned value or a raised exception. -/
inductive Res (α : Type) where
  | ok : α → Res α
  | error : Err → Res α
deriving Repr, DecidableEq

/-- Point inside the sale transaction at which a storage fault occurs. -/
inductive Fault where
  | insertFail
  | updateFail
  | commitFail
deriving Repr, DecidableEq

namespace SQLiteRepository

/-- repository.get_product_by_sku: `SELECT * FROM products WHERE sku = ?`. -/
def get_product_by_sku (db : DB) (sku : String) : Option Product :=
  db.products.find? (fun p => p.sku == sku)

/-- repository.insert_product: INSERT of one row; the UNIQUE constraint on `sku`
turns a duplicate into a DatabaseError; the store assigns the id and
fills `created_at` with `now` when the product carries none. -/
def insert_product (now : String) (db : DB) (p : Product) : DB × Res ℤ :=
  if db.products.any (fun q => q.sku == p.sku) then
    (db, .error { kind := .database, msg := "Contrainte violée (SKU unique ?)" })
  else
    let row : Product :=
      { p with id := some db.nextProductId, created_at := some (p.created_at.getD now) }
    ({ db with
        products := db.products ++ [row],
        nextProductId := db.nextProductId + 1 },
     .ok db.nextProductId)

/-- Insertion step of the sort mirroring `ORDER BY sku ASC`. -/
def insertBySku (p : Product) : List Product → List Product
  | [] => [p]
  | q :: qs => if p.sku < q.sku then p :: q :: qs else q :: insertBySku p qs

/-- repository.list_products: `SELECT * FROM products ORDER BY sku ASC`. -/
def list_products (db : DB) : List Product :=
  db.products.foldr insertBySku []

/-- Partial field map accepted by update_product: only the five allowed
columns can be supplied (repository.py filters every other key out). -/
structure ProductUpdates where
  name : Option String := none
  category : Option String := none
  unit_price_ht : Option ℚ := none
  vat_rate : Option ℚ := none
  quantity : Option ℤ := none
deriving Repr, DecidableEq

/-- True when no allowed field is supplied (`if not fields: return`). -/
def ProductUpdates.isEmpty (u : ProductUpdates) : Bool :=
  u.name.isNone && u.category.isNone && u.unit_price_ht.isNone &&
    u.vat_rate.isNone && u.quantity.isNone

/-- repository.update_product: dynamic `UPDATE products SET ... WHERE sku = ?`;
returns the store unchanged when no allowed field is supplied. -/
def update_product (db : DB) (sku : String) (u : ProductUpdates) : DB :=
  if u.isEmpty then db
  else
    { db with products := db.products.map (fun r =>
        if r.sku = sku then
          { r with
              name := u.name.getD r.name,
              category := u.category.getD r.category,
              unit_price_ht := u.unit_price_ht.getD r.unit_price_ht,
              vat_rate := u.vat_rate.getD r.vat_rate,
              quantity := u.quantity.getD r.quantity }
        else r) }

/-- repository.delete_product: `DELETE FROM products WHERE sku = ?`.
A missing row gives rowcount 0, hence the introuvable DatabaseError; a
sale referencing the row violates the ON DELETE RESTRICT foreign key,
an IntegrityError re-raised as a DatabaseError. -/
def delete_product (db : DB) (sku : String) : DB × Res Unit :=
  let matching := db.products.filter (fun p => p.sku == sku)
  if matching.isEmpty then
    (db, .error { kind := .database, msg := "Produit " ++ sku ++ " introuvable" })
  else if db.sales.any (fun s => matching.any (fun p => p.id == s.product_id)) then
    (db, .error { kind := .database,
                  msg := "Impossible de supprimer " ++ sku ++ ": produit lié à des ventes" })
  else
    ({ db with products := db.products.filter (fun p => !(p.sku == sku)) }, .ok ())

/-- repository.sell_product: one transaction holding the sale INSERT and
the stock UPDATE. Statements act on an uncommitted pending state; a
storage fault at any of the three points rolls the transaction back,
leaving the committed state untouched, and raises a DatabaseError. -/
def sell_product (fault : Option Fault) (db : DB) (sale : Sale) : DB × Res Unit :=
  if fault = some Fault.insertFail then
    (db, .error { kind := .database, msg := "Erreur vente" })
  else
    let pending1 : DB := { db with sales := db.sales ++ [sale] }
    if fault = some Fault.updateFail then
      (db, .error { kind := .database, msg := "Erreur vente" })
    else
      let pending2 : DB := { pending1 with products := pending1.products.map (fun p =>
          if p.sku = sale.sku then { p with quantity := p.quantity - sale.quantity } else p) }
      if fault = some Fault.commitFail then
        (db, .error { kind := .database, msg := "Erreur vente" })
      else
        (pending2, .ok ())

/-- Row-scan step of the dashboard aggregation query. -/
def dashStep (acc : ℤ × ℤ × ℚ × ℚ × ℚ) (s : Sale) : ℤ × ℤ × ℚ × ℚ × ℚ :=
  (acc.1 + 1, acc.2.1 + s.quantity, acc.2.2.1 + s.total_ht,
   acc.2.2.2.1 + s.total_vat, acc.2.2.2.2 + s.total_ttc)

/-- Result of the dashboard aggregation. -/
structure DashboardStats where
  nb_ventes : ℤ
  qty_totale : ℤ
  ca_ht : ℚ
  tva_totale : ℚ
  ca_ttc : ℚ
deriving Repr, DecidableEq

/-- repository.get_dashboard_stats: COUNT / SUM over the sales table with
COALESCE to 0, monetary sums rounded to 2 decimals at the boundary. -/
def get_dashboard_stats (db : DB) : DashboardStats :=
  let agg := db.sales.foldl dashStep ((0 : ℤ), (0 : ℤ), (0 : ℚ), (0 : ℚ), (0 : ℚ))
  { nb_ventes := agg.1,
    qty_totale := agg.2.1,
    ca_ht := round2 agg.2.2.1,
    tva_totale := round2 agg.2.2.2.1,
    ca_ttc := round2 agg.2.2.2.2 }

end SQLiteRepository

/-- Guard `vat_rate is not None and (vat_rate < 0 or vat_rate > 1)` of
services.add_product. -/
def badVatOpt : Option ℚ → Bool
  | some v => decide (v < 0) || decide (1 < v)
  | none => false

/-- Guard `"unit_price_ht" in updates and updates["unit_price_ht"] < 0`. -/
def badPriceUpd (u : SQLiteRepository.ProductUpdates) : Bool :=
  match u.unit_price_ht with
  | some x => decide (x < 0)
  | none => false

/-- Guard `"quantity" in updates and updates["quantity"] < 0`. -/
def badQtyUpd (u : SQLiteRepository.ProductUpdates) : Bool :=
  match u.quantity with
  | some x => decide (x < 0)
  | none => false

/-- Guard `"vat_rate" in updates and (updates["vat_rate"] < 0 or updates["vat_rate"] > 1)`. -/
def badVatUpd (u : SQLiteRepository.ProductUpdates) : Bool :=
  match u.vat_rate with
  | some v => decide (v < 0) || decide (1 < v)
  | none => false

/-- Normalized product record produced by utils.load_initial_json
(the import normalizer is out of the engine, its output shape is here). -/
structure ImportRec where
  sku : String
  name : String
  category : String
  unit_price_ht : ℚ
  quantity : ℤ
  vat_rate : ℚ
deriving Repr, DecidableEq

/-- The Product built from an import record inside the initialization
loop of services.initialize_from_json. -/
def productOfRec (now : String) (r : ImportRec) : Product :=
  { sku := r.sku, name := r.name, category := r.category,
    unit_price_ht := r.unit_price_ht, quantity := r.quantity,
    vat_rate := r.vat_rate, id := none, created_at := some now }

/-- The empty database produced by reset_and_create_schema. -/
def emptyDB : DB := { products := [], sales := [], nextProductId := 1 }

/-- Totals dict returned by services.sell_product. -/
structure SellTotals where
  total_ht : ℚ
  total_vat : ℚ
  total_ttc : ℚ
deriving Repr, DecidableEq

namespace InventoryManager

/-- services.add_product: field validations, the explicit pre-existence
check on the SKU, price rounding, default VAT fallback, then the insert.
The returned Product is the one built by the engine (id still `none`). -/
def add_product (cfg : AppConfig) (now : String) (db : DB)
    (sku name category : String) (unit_price_ht : ℚ) (quantity : ℤ)
    (vat_rate : Option ℚ) : DB × Res Product :=
  if unit_price_ht < 0 then
    (db, .error { kind := .validation, msg := "prix negatif pas possible" })
  else if quantity < 0 then
    (db, .error { kind := .validation, msg := "quantite negatif pas possible" })
  else if badVatOpt vat_rate then
    (db, .error { kind := .validation, msg := "tva doit etre entre 0 et 1" })
  else
    match SQLiteRepository.get_product_by_sku db sku with
    | some _ => (db, .error { kind := .validation, msg := "SKU " ++ sku ++ " existe deja" })
    | none =>
      let vat := vat_rate.getD cfg.default_vat_rate
      let product : Product :=
        { sku := sku, name := name, category := category,
          unit_price_ht := round2 unit_price_ht, vat_rate := vat,
          quantity := quantity, id := none, created_at := some now }
      match SQLiteRepository.insert_product now db product with
      | (db2, .ok _) => (db2, .ok product)
      | (db2, .error e) => (db2, .error e)

/-- services.update_product: pre-existence check, per-field validations,
price rounding, delegated dynamic update, then a re-read whose result is
returned (Python would return None were the row gone, hence Option). -/
def update_product (db : DB) (sku : String) (u : SQLiteRepository.ProductUpdates) :
    DB × Res (Option Product) :=
  match SQLiteRepository.get_product_by_sku db sku with
  | none => (db, .error { kind := .validation, msg := "produit " ++ sku ++ " pas trouve" })
  | some _ =>
    if badPriceUpd u then
      (db, .error { kind := .validation, msg := "prix negatif pas possible" })
    else if badQtyUpd u then
      (db, .error { kind := .validation, msg := "quantite negatif pas possible" })
    else if badVatUpd u then
      (db, .error { kind := .validation, msg := "tva doit etre entre 0 et 1" })
    else
      let u2 : SQLiteRepository.ProductUpdates :=
        { u with unit_price_ht := u.unit_price_ht.map round2 }
      let db2 := SQLiteRepository.update_product db sku u2
      (db2, .ok (SQLiteRepository.get_product_by_sku db2 sku))

/-- services.delete_product: pre-existence check, then the store delete.
services.py wraps the delete in `except DatabaseError`, but DatabaseError
is never imported there, so when the store raises (referential conflict
included) evaluating the except clause raises NameError and the intended
ValidationError translation is unreachable. -/
def delete_product (db : DB) (sku : String) : DB × Res Unit :=
  match SQLiteRepository.get_product_by_sku db sku with
  | none => (db, .error { kind := .validation, msg := "produit " ++ sku ++ " pas trouve" })
  | some _ =>
    match SQLiteRepository.delete_product db sku with
    | (db2, .ok _) => (db2, .ok ())
    | (_, .error _) =>
      (db, .error { kind := .nameError, msg := "name DatabaseError is not defined" })

/-- services.sell_product: quantity validation, product lookup, stock
sufficiency check, the three independently rounded totals, then the
transactional store sale. -/
def sell_product (fault : Option Fault) (now : String) (db : DB)
    (sku : String) (quantity : ℤ) : DB × Res SellTotals :=
  if quantity ≤ 0 then
    (db, .error { kind := .validation, msg := "quantite doit etre > 0" })
  else
    match SQLiteRepository.get_product_by_sku db sku with
    | none => (db, .error { kind := .validation, msg := "produit " ++ sku ++ " pas trouve" })
    | some product =>
      if product.quantity < quantity then
        (db, .error { kind := .validation,
                      msg := "stock pas assez. il reste: " ++ toString product.quantity })
      else
        let total_ht := round2 (product.unit_price_ht * (quantity : ℚ))
        let total_vat := round2 (total_ht * product.vat_rate)
        let total_ttc := round2 (total_ht + total_vat)
        let sale : Sale :=
          { product_id := product.id, sku := sku, quantity := quantity,
            unit_price_ht := product.unit_price_ht, vat_rate := product.vat_rate,
            total_ht := total_ht, total_vat := total_vat, total_ttc := total_ttc,
            sold_at := now }
        match SQLiteRepository.sell_product fault db sale with
        | (db2, .ok _) =>
          (db2, .ok { total_ht := total_ht, total_vat := total_vat, total_ttc := total_ttc })
        | (db2, .error e) => (db2, .error e)

/-- services.get_dashboard: pass-through to the store aggregate. -/
def get_dashboard (db : DB) : SQLiteRepository.DashboardStats :=
  SQLiteRepository.get_dashboard_stats db

/-- services.list_inventory: ensure schema (a no-op on the model), list. -/
def list_inventory (db : DB) : List Product :=
  SQLiteRepository.list_products db

/-- Insertion loop of services.initialize_from_json: each record is
inserted through its own connection scope (each insert commits on its
own); a failure stops the loop but the state reached so far is kept. -/
def initGo (now : String) : DB → List ImportRec → Nat → DB × Res Nat
  | db, [], count => (db, .ok count)
  | db, r :: rs, count =>
    match SQLiteRepository.insert_product now db (productOfRec now r) with
    | (_, .error e) => (db, .error e)
    | (db2, .ok _) => initGo now db2 rs (count + 1)

/-- services.initialize_from_json, after the external JSON normalizer:
reset or keep the schema, then insert the records in order. -/
def initialize_from_json (now : String) (db : DB) (records : List ImportRec)
    (reset : Bool) : DB × Res Nat :=
  let db0 := if reset then emptyDB else db
  initGo now db0 records 0

end InventoryManager

/-- Sample configuration (db_path is irrelevant to the model). -/
def sampleCfg : AppConfig := { db_path := "stock.db" }

/-- Sample stored product with ample stock. -/
def sampleP1 : Product :=
  { sku := "P1", name := "Produit", category := "Cat", unit_price_ht := 10,
    quantity := 5, vat_rate := 1/5, id := some 1, created_at := some "t0" }

/-- Sample database holding `sampleP1` and no sales. -/
def sampleDB : DB := { products := [sampleP1], sales := [], nextProductId := 2 }

/-- Sample stored product with stock 1. -/
def lowP1 : Product :=
  { sku := "P1", name := "Produit", category := "Cat", unit_price_ht := 10,
    quantity := 1, vat_rate := 1/5, id := some 1, created_at := some "t0" }

/-- Sample database whose only product has stock 1. -/
def lowDB : DB := { products := [lowP1], sales := [], nextProductId := 2 }

/-- A recorded sale referencing `sampleP1` (product_id 1). -/
def sampleSale : Sale :=
  { product_id := some 1, sku := "P1", quantity := 2, unit_price_ht := 10,
    vat_rate := 1/5, total_ht := 20, total_vat := 4, total_ttc := 24, sold_at := "t1" }

/-- Sample database where `sampleP1` has one recorded sale. -/
def saleDB : DB := { products := [sampleP1], sales := [sampleSale], nextProductId := 2 }

/-- Sample normalized import record. -/
def recA : ImportRec :=
  { sku := "P1", name := "Produit", category := "Cat", unit_price_ht := 10,
    quantity := 5, vat_rate := 1/5 }

/-- Sample partial update supplying only the display name. -/
def sampleUpd : SQLiteRepository.ProductUpdates := { name := some "Nouveau" }

/-- The database obtained by importing `recA` into the empty database. -/
def dbAfterRecA : DB :=
  { products := [{ sku := "P1", name := "Produit", category := "Cat",
                   unit_price_ht := 10, quantity := 5, vat_rate := 1/5,
                   id := some 1, created_at := some "t1" }],
    sales := [], nextProductId := 2 }

/-- Searching a concatenation whose first part has no hit searches the
second part. -/
theorem find?_append_of_none {α : Type} {l1 l2 : List α} {f : α → Bool}
    (h : l1.find? f = none) : (l1 ++ l2).find? f = l2.find? f := by
  induction l1 with
  | nil => rfl
  | cons a t ih =>
    by_cases hfa : f a = true
    · rw [List.find?_cons_of_pos _ hfa] at h
      exact absurd h (by simp)
    · have hfa2 : ¬ f a = true := hfa
      rw [List.find?_cons_of_neg _ hfa2] at h
      rw [List.cons_append, List.find?_cons_of_neg _ hfa2]
      exact ih h

/-- A row rewrite applied exactly to the rows whose SKU matches commutes
with looking the SKU up: the lookup of the rewritten table is the
rewrite of the original lookup. -/
theorem find?_map_ite_sku (sku : String) (f : Product → Product)
    (hf : ∀ r, (f r).sku = r.sku) :
    ∀ l : List Product,
      (l.map (fun r => if r.sku = sku then f r else r)).find? (fun r => r.sku == sku) =
        (l.find? (fun r => r.sku == sku)).map f
  | [] => rfl
  | a :: t => by
    by_cases ha : a.sku = sku
    · rw [List.map_cons, if_pos ha,
        @List.find?_cons_of_pos _ (fun r => r.sku == sku) (f a) _ (by simp [hf, ha]),
        @List.find?_cons_of_pos _ (fun r => r.sku == sku) a _ (by simp [ha])]
      rfl
    · rw [List.map_cons, if_neg ha,
        @List.find?_cons_of_neg _ (fun r => r.sku == sku) a _ (by simp [ha]),
        @List.find?_cons_of_neg _ (fun r => r.sku == sku) a _ (by simp [ha])]
      exact find?_map_ite_sku sku f hf t

/-- Closed form of the dashboard row scan. -/
theorem foldl_dashStep (l : List Sale) :
    ∀ (a b : ℤ) (c d e : ℚ),
      l.foldl SQLiteRepository.dashStep (a, b, c, d, e) =
        (a + l.length, b + (l.map Sale.quantity).sum,
         c + (l.map Sale.total_ht).sum, d + (l.map Sale.total_vat).sum,
         e + (l.map Sale.total_ttc).sum) := by
  induction l with
  | nil => intro a b c d e; simp
  | cons s t ih =>
    intro a b c d e
    rw [List.foldl_cons, show SQLiteRepository.dashStep (a, b, c, d, e) s =
      (a + 1, b + s.quantity, c + s.total_ht, d + s.total_vat, e + s.total_ttc) from rfl, ih]
    simp only [List.length_cons, List.map_cons, List.sum_cons, Prod.mk.injEq]
    refine ⟨by push_cast; ring, by ring, by ring, by ring, by ring⟩

/-- Rounding zero to cents gives zero. -/
theorem round2_zero : round2 0 = 0 := by
  have h1 : roundHalfEven 0 = 0 := by
    unfold roundHalfEven
    norm_num
  unfold round2
  rw [show ((0:ℚ) * 100) = 0 by ring, h1]
  norm_num

/-- Running the import loop over a concatenation first runs it over the
left part; when that part fully succeeds the loop continues on the right
part from the state and count it reached. -/
theorem initGo_append (now : String) (xs : List ImportRec) :
    ∀ (ys : List ImportRec) (db db1 : DB) (c k : Nat),
      InventoryManager.initGo now db xs c = (db1, .ok k) →
      InventoryManager.initGo now db (xs ++ ys) c = InventoryManager.initGo now db1 ys k := by
  induction xs with
  | nil =>
    intro ys db db1 c k h
    simp only [InventoryManager.initGo, Prod.mk.injEq] at h
    obtain ⟨h1, h2⟩ := h
    cases h2
    rw [List.nil_append, h1]
  | cons r t ih =>
    intro ys db db1 c k h
    rw [List.cons_append]
    simp only [InventoryManager.initGo] at h ⊢
    cases hi : SQLiteRepository.insert_product now db (productOfRec now r) with
    | mk db2 res =>
      rw [hi] at h
      cases res with
      | error e => simp at h
      | ok v => exact ih ys db2 db1 (c + 1) k h

/-- Claim C2: the store sale is atomic. For every fault point, either no
fault occurred and both the sale-row append and the quantity decrement
take effect together, or a storage fault occurred partway, the database
(quantity and sales ledger included) is exactly unchanged, and a
DatabaseError (the StorageError kind) is raised. -/
theorem record_sale_atomic (fault : Option Fault) (db : DB) (sale : Sale) :
    (fault = none ∧
      SQLiteRepository.sell_product fault db sale =
        ({ db with
            sales := db.sales ++ [sale],
            products := db.products.map (fun p =>
              if p.sku = sale.sku then { p with quantity := p.quantity - sale.quantity }
              else p) },
         .ok ())) ∨
    (∃ f, fault = some f ∧
      SQLiteRepository.sell_product fault db sale =
        (db, .error { kind := .database, msg := "Erreur vente" })) := by
  cases fault with
  | none => exact Or.inl ⟨rfl, rfl⟩
  | some f => exact Or.inr ⟨f, rfl, by cases f <;> rfl⟩

/-- Claim C7: the dashboard aggregate returns the number of sale rows,
the sum of their quantities, and the sums of their three monetary totals
each rounded to 2 decimals; on an empty ledger every field is zero and
no failure occurs. -/
theorem dashboard_totals (db : DB) :
    InventoryManager.get_dashboard db =
      { nb_ventes := (db.sales.length : ℤ),
        qty_totale := (db.sales.map Sale.quantity).sum,
        ca_ht := round2 ((db.sales.map Sale.total_ht).sum),
        tva_totale := round2 ((db.sales.map Sale.total_vat).sum),
        ca_ttc := round2 ((db.sales.map Sale.total_ttc).sum) } ∧
    (db.sales = [] →
      InventoryManager.get_dashboard db =
        { nb_ventes := 0, qty_totale := 0, ca_ht := 0, tva_totale := 0, ca_ttc := 0 }) := by
  have hmain : InventoryManager.get_dashboard db =
      { nb_ventes := (db.sales.length : ℤ),
        qty_totale := (db.sales.map Sale.quantity).sum,
        ca_ht := round2 ((db.sales.map Sale.total_ht).sum),
        tva_totale := round2 ((db.sales.map Sale.total_vat).sum),
        ca_ttc := round2 ((db.sales.map Sale.total_ttc).sum) } := by
    unfold InventoryManager.get_dashboard SQLiteRepository.get_dashboard_stats
    rw [foldl_dashStep]
    simp
  refine ⟨hmain, fun h => ?_⟩
  rw [hmain]
  simp [h, round2_zero]

/-- Claim C1: for a product with stock `s` and every quantity `q` with
`0 < q ≤ s`, the sale succeeds, the stock becomes exactly `s - q`, exactly
one sale row is appended whose totals are `round2 (price * q)`, then
`round2 (total_ht * vat)`, then `round2 (total_ht + total_vat)` — each
rounding applied independently and in this order — and the returned
result carries these same three totals. -/
theorem sell_product_success (now : String) (db : DB) (sku : String) (q : ℤ)
    (product : Product)
    (hfind : SQLiteRepository.get_product_by_sku db sku = some product)
    (hq : 0 < q) (hs : q ≤ product.quantity) :
    InventoryManager.sell_product none now db sku q =
      ({ db with
          sales := db.sales ++
            [{ product_id := product.id, sku := sku, quantity := q,
               unit_price_ht := product.unit_price_ht, vat_rate := product.vat_rate,
               total_ht := round2 (product.unit_price_ht * (q : ℚ)),
               total_vat := round2 (round2 (product.unit_price_ht * (q : ℚ)) * product.vat_rate),
               total_ttc := round2 (round2 (product.unit_price_ht * (q : ℚ)) +
                 round2 (round2 (product.unit_price_ht * (q : ℚ)) * product.vat_rate)),
               sold_at := now }],
          products := db.products.map (fun p =>
            if p.sku = sku then { p with quantity := p.quantity - q } else p) },
       .ok { total_ht := round2 (product.unit_price_ht * (q : ℚ)),
             total_vat := round2 (round2 (product.unit_price_ht * (q : ℚ)) * product.vat_rate),
             total_ttc := round2 (round2 (product.unit_price_ht * (q : ℚ)) +
               round2 (round2 (product.unit_price_ht * (q : ℚ)) * product.vat_rate)) }) ∧
    SQLiteRepository.get_product_by_sku
        (InventoryManager.sell_product none now db sku q).1 sku =
      some { product with quantity := product.quantity - q } := by
  have h1 : ¬ q ≤ 0 := by omega
  have h2 : ¬ product.quantity < q := by omega
  have hmain : InventoryManager.sell_product none now db sku q =
      ({ db with
          sales := db.sales ++
            [{ product_id := product.id, sku := sku, quantity := q,
               unit_price_ht := product.unit_price_ht, vat_rate := product.vat_rate,
               total_ht := round2 (product.unit_price_ht * (q : ℚ)),
               total_vat := round2 (round2 (product.unit_price_ht * (q : ℚ)) * product.vat_rate),
               total_ttc := round2 (round2 (product.unit_price_ht * (q : ℚ)) +
                 round2 (round2 (product.unit_price_ht * (q : ℚ)) * product.vat_rate)),
               sold_at := now }],
          products := db.products.map (fun p =>
            if p.sku = sku then { p with quantity := p.quantity - q } else p) },
       .ok { total_ht := round2 (product.unit_price_ht * (q : ℚ)),
             total_vat := round2 (round2 (product.unit_price_ht * (q : ℚ)) * product.vat_rate),
             total_ttc := round2 (round2 (product.unit_price_ht * (q : ℚ)) +
               round2 (round2 (product.unit_price_ht * (q : ℚ)) * product.vat_rate)) }) := by
    unfold InventoryManager.sell_product
    rw [if_neg h1]
    simp only [hfind]
    rw [if_neg h2]
    rfl
  refine ⟨hmain, ?_⟩
  rw [hmain]
  show (db.products.map (fun p =>
      if p.sku = sku then { p with quantity := p.quantity - q } else p)).find?
      (fun r => r.sku == sku) = _
  rw [find?_map_ite_sku sku (fun p => { p with quantity := p.quantity - q })
    (fun r => rfl) db.products]
  have hfind2 : db.products.find? (fun r => r.sku == sku) = some product := hfind
  rw [hfind2]
  rfl

/-- Witness for C1: selling 2 of a product with stock 5 at price 10 and
vat 1/5 takes the success path; the hypotheses hold at this input. -/
theorem sell_product_success_witness :
    (0:ℤ) < 2 ∧
    (InventoryManager.sell_product none "t1" sampleDB "P1" 2 =
      ({ sampleDB with
          sales := sampleDB.sales ++
            [{ product_id := sampleP1.id, sku := "P1", quantity := 2,
               unit_price_ht := sampleP1.unit_price_ht, vat_rate := sampleP1.vat_rate,
               total_ht := round2 (sampleP1.unit_price_ht * ((2:ℤ) : ℚ)),
               total_vat := round2 (round2 (sampleP1.unit_price_ht * ((2:ℤ) : ℚ)) * sampleP1.vat_rate),
               total_ttc := round2 (round2 (sampleP1.unit_price_ht * ((2:ℤ) : ℚ)) +
                 round2 (round2 (sampleP1.unit_price_ht * ((2:ℤ) : ℚ)) * sampleP1.vat_rate)),
               sold_at := "t1" }],
          products := sampleDB.products.map (fun p =>
            if p.sku = "P1" then { p with quantity := p.quantity - 2 } else p) },
       .ok { total_ht := round2 (sampleP1.unit_price_ht * ((2:ℤ) : ℚ)),
             total_vat := round2 (round2 (sampleP1.unit_price_ht * ((2:ℤ) : ℚ)) * sampleP1.vat_rate),
             total_ttc := round2 (round2 (sampleP1.unit_price_ht * ((2:ℤ) : ℚ)) +
               round2 (round2 (sampleP1.unit_price_ht * ((2:ℤ) : ℚ)) * sampleP1.vat_rate)) }) ∧
     SQLiteRepository.get_product_by_sku
        (InventoryManager.sell_product none "t1" sampleDB "P1" 2).1 "P1" =
      some { sampleP1 with quantity := sampleP1.quantity - 2 }) :=
  ⟨by decide, sell_product_success "t1" sampleDB "P1" 2 sampleP1 rfl (by decide) (by decide)⟩

/-- Claim C3 as amended: when the requested quantity exceeds the stock,
sell_product fails with a Validation-kind error (the code raises
ValidationError, not the StockError class) whose message reports the
remaining quantity, and leaves the database — stock and sales ledger —
completely unchanged, whatever the store would have done; it also fails
with Validation when the quantity is not positive and when the SKU is
absent, again leaving the database unchanged. -/
theorem sell_product_failure_modes (fault : Option Fault) (now : String)
    (db : DB) (sku : String) (q : ℤ) :
    (∀ product, SQLiteRepository.get_product_by_sku db sku = some product →
      0 < q → product.quantity < q →
      InventoryManager.sell_product fault now db sku q =
        (db, .error { kind := .validation,
                      msg := "stock pas assez. il reste: " ++ toString product.quantity })) ∧
    (q ≤ 0 →
      InventoryManager.sell_product fault now db sku q =
        (db, .error { kind := .validation, msg := "quantite doit etre > 0" })) ∧
    (SQLiteRepository.get_product_by_sku db sku = none → 0 < q →
      InventoryManager.sell_product fault now db sku q =
        (db, .error { kind := .validation, msg := "produit " ++ sku ++ " pas trouve" })) := by
  refine ⟨?_, ?_, ?_⟩
  · intro product hfind hq hs
    unfold InventoryManager.sell_product
    rw [if_neg (show ¬ q ≤ 0 by omega)]
    simp only [hfind]
    rw [if_pos hs]
  · intro hq
    unfold InventoryManager.sell_product
    rw [if_pos hq]
  · intro hnone hq
    unfold InventoryManager.sell_product
    rw [if_neg (show ¬ q ≤ 0 by omega)]
    simp only [hnone]

/-- Witness for C3: all three failure modes at concrete inputs on the
stock-1 database. -/
theorem sell_product_failure_modes_witness :
    (InventoryManager.sell_product none "t1" lowDB "P1" 2 =
      (lowDB, .error { kind := .validation,
                       msg := "stock pas assez. il reste: " ++ toString lowP1.quantity })) ∧
    (InventoryManager.sell_product none "t1" lowDB "P1" 0 =
      (lowDB, .error { kind := .validation, msg := "quantite doit etre > 0" })) ∧
    (InventoryManager.sell_product none "t1" lowDB "P2" 1 =
      (lowDB, .error { kind := .validation, msg := "produit " ++ "P2" ++ " pas trouve" })) :=
  ⟨(sell_product_failure_modes none "t1" lowDB "P1" 2).1 lowP1 rfl (by decide) (by decide),
   (sell_product_failure_modes none "t1" lowDB "P1" 0).2.1 (by decide),
   (sell_product_failure_modes none "t1" lowDB "P2" 1).2.2 rfl (by decide)⟩

/-- Counterexample for C3 as stated: with stock 1 and requested quantity
2 the engine raises a ValidationError; its kind is not the StockError
kind (ErrKind.stock) that a StockInsufficient-kind failure would carry,
so the claim is false at this input. -/
theorem sell_insufficient_not_stock_kind :
    (InventoryManager.sell_product none "t1" lowDB "P1" 2).2 =
      .error { kind := .validation,
               msg := "stock pas assez. il reste: " ++ toString lowP1.quantity } ∧
    ErrKind.validation ≠ ErrKind.stock :=
  ⟨rfl, by decide⟩

/-- Claim C4, evaluated at its failing input: deleting a product that one
sale references. The store raises its referential-conflict DatabaseError,
but services.py never imports DatabaseError, so evaluating the
`except DatabaseError` clause raises NameError instead of the documented
ValidationError translation; the product does remain listed. -/
theorem delete_product_with_sales_raises_name_error :
    InventoryManager.delete_product saleDB "P1" =
      (saleDB, .error { kind := .nameError, msg := "name DatabaseError is not defined" }) ∧
    (InventoryManager.list_inventory saleDB).any (fun p => p.sku == "P1") = true :=
  ⟨rfl, rfl⟩

/-- When no stored row carries the SKU of the inserted product, the
insert appends one row with the next id and bumps the counter. -/
theorem insert_product_of_not_exists (now : String) (db : DB) (p : Product)
    (h : db.products.any (fun q => q.sku == p.sku) = false) :
    SQLiteRepository.insert_product now db p =
      ({ db with
          products := db.products ++
            [{ p with id := some db.nextProductId, created_at := some (p.created_at.getD now) }],
          nextProductId := db.nextProductId + 1 },
       .ok db.nextProductId) := by
  unfold SQLiteRepository.insert_product
  simp [h]

/-- A failed SKU lookup means every stored row has a different SKU. -/
theorem any_sku_eq_false_of_find?_none (db : DB) (sku : String)
    (habs : SQLiteRepository.get_product_by_sku db sku = none) :
    db.products.any (fun r => r.sku == sku) = false := by
  rw [List.any_eq_false]
  intro a ha
  have h2 := List.find?_eq_none.mp habs a ha
  simpa using h2

/-- Claim C5: for valid inputs (price not negative, quantity not
negative, supplied vat rate in range) and a fresh SKU, add_product then
get_product_by_sku returns a product whose stored unit price is
`round2 price` and whose vat rate is the supplied one, or the configured
default when omitted; the configured default rate is 1/5 = 0.20. -/
theorem add_then_find_product (cfg : AppConfig) (now : String) (db : DB)
    (sku nm category : String) (price : ℚ) (qty : ℤ) (vatOpt : Option ℚ)
    (hp : ¬ price < 0) (hq : ¬ qty < 0) (hv : badVatOpt vatOpt = false)
    (habs : SQLiteRepository.get_product_by_sku db sku = none) :
    ∃ p2, SQLiteRepository.get_product_by_sku
        (InventoryManager.add_product cfg now db sku nm category price qty vatOpt).1 sku =
        some p2 ∧
      p2.unit_price_ht = round2 price ∧
      p2.vat_rate = vatOpt.getD cfg.default_vat_rate ∧
      ({ db_path := cfg.db_path } : AppConfig).default_vat_rate = 1/5 := by
  have hany := any_sku_eq_false_of_find?_none db sku habs
  have hres : InventoryManager.add_product cfg now db sku nm category price qty vatOpt =
      ({ db with
          products := db.products ++
            [{ sku := sku, name := nm, category := category,
               unit_price_ht := round2 price, quantity := qty,
               vat_rate := vatOpt.getD cfg.default_vat_rate,
               id := some db.nextProductId, created_at := some now }],
          nextProductId := db.nextProductId + 1 },
       .ok { sku := sku, name := nm, category := category,
             unit_price_ht := round2 price, quantity := qty,
             vat_rate := vatOpt.getD cfg.default_vat_rate,
             id := none, created_at := some now }) := by
    unfold InventoryManager.add_product
    rw [if_neg hp, if_neg hq, if_neg (by simp [hv])]
    simp only [habs]
    rw [insert_product_of_not_exists now db _ (by simpa using hany)]
    rfl
  refine ⟨{ sku := sku, name := nm, category := category,
            unit_price_ht := round2 price, quantity := qty,
            vat_rate := vatOpt.getD cfg.default_vat_rate,
            id := some db.nextProductId, created_at := some now }, ?_, rfl, rfl, rfl⟩
  rw [hres]
  simp only [SQLiteRepository.get_product_by_sku]
  rw [find?_append_of_none habs]
  simp

/-- Witness for C5: adding a fresh product to the empty database and
looking it up; the hypotheses hold at this input. -/
theorem add_then_find_product_witness :
    ¬ (10:ℚ) < 0 ∧
    (∃ p2, SQLiteRepository.get_product_by_sku
        (InventoryManager.add_product sampleCfg "t1" emptyDB "P9" "Neuf" "Cat" 10 5 none).1 "P9" =
        some p2 ∧
      p2.unit_price_ht = round2 10 ∧
      p2.vat_rate = Option.getD none sampleCfg.default_vat_rate ∧
      ({ db_path := sampleCfg.db_path } : AppConfig).default_vat_rate = 1/5) :=
  ⟨by decide,
   add_then_find_product sampleCfg "t1" emptyDB "P9" "Neuf" "Cat" 10 5 none
     (by decide) (by decide) rfl rfl⟩

/-- Claim C6: for a SKU already stored, add_product always fails with a
Validation-kind error whatever the other fields are, the database is
returned unchanged (the store is never touched), and when the other
fields pass their own validations the message is the domain-specific one
of the explicit pre-existence check. -/
theorem add_product_duplicate_sku (cfg : AppConfig) (now : String) (db : DB)
    (sku nm category : String) (price : ℚ) (qty : ℤ) (vatOpt : Option ℚ)
    (product : Product)
    (hfind : SQLiteRepository.get_product_by_sku db sku = some product) :
    ∃ e, InventoryManager.add_product cfg now db sku nm category price qty vatOpt =
        (db, .error e) ∧
      e.kind = .validation ∧
      (¬ price < 0 → ¬ qty < 0 → badVatOpt vatOpt = false →
        e.msg = "SKU " ++ sku ++ " existe deja") := by
  unfold InventoryManager.add_product
  by_cases hp : price < 0
  · rw [if_pos hp]
    exact ⟨_, rfl, rfl, fun hp2 _ _ => absurd hp hp2⟩
  · rw [if_neg hp]
    by_cases hq : qty < 0
    · rw [if_pos hq]
      exact ⟨_, rfl, rfl, fun _ hq2 _ => absurd hq hq2⟩
    · rw [if_neg hq]
      by_cases hv : badVatOpt vatOpt = true
      · rw [if_pos hv]
        exact ⟨_, rfl, rfl, fun _ _ hv2 => by rw [hv2] at hv; exact absurd hv (by simp)⟩
      · rw [if_neg hv]
        simp only [hfind]
        exact ⟨_, rfl, rfl, fun _ _ _ => rfl⟩

/-- Witness for C6: adding another product under the stored SKU P1 with
valid other fields; the hypothesis holds at this input. -/
theorem add_product_duplicate_sku_witness :
    SQLiteRepository.get_product_by_sku sampleDB "P1" = some sampleP1 ∧
    (∃ e, InventoryManager.add_product sampleCfg "t1" sampleDB "P1" "Autre" "Cat" 3 7 none =
        (sampleDB, .error e) ∧
      e.kind = .validation ∧
      (¬ (3:ℚ) < 0 → ¬ (7:ℤ) < 0 → badVatOpt none = false →
        e.msg = "SKU " ++ "P1" ++ " existe deja")) :=
  ⟨rfl,
   add_product_duplicate_sku sampleCfg "t1" sampleDB "P1" "Autre" "Cat" 3 7 none sampleP1 rfl⟩

/-- Claim C10: for valid inputs and a fresh SKU, the Product value
returned by add_product still has id none — the store-assigned id
returned by the insert is discarded — even though looking the SKU up
afterwards returns the row with its assigned id. -/
theorem add_product_returns_id_none (cfg : AppConfig) (now : String) (db : DB)
    (sku nm category : String) (price : ℚ) (qty : ℤ) (vatOpt : Option ℚ)
    (hp : ¬ price < 0) (hq : ¬ qty < 0) (hv : badVatOpt vatOpt = false)
    (habs : SQLiteRepository.get_product_by_sku db sku = none) :
    ∃ prod, (InventoryManager.add_product cfg now db sku nm category price qty vatOpt).2 =
        .ok prod ∧
      prod.id = none ∧
      (∃ p2, SQLiteRepository.get_product_by_sku
          (InventoryManager.add_product cfg now db sku nm category price qty vatOpt).1 sku =
          some p2 ∧
        p2.id = some db.nextProductId) := by
  have hany := any_sku_eq_false_of_find?_none db sku habs
  have hres : InventoryManager.add_product cfg now db sku nm category price qty vatOpt =
      ({ db with
          products := db.products ++
            [{ sku := sku, name := nm, category := category,
               unit_price_ht := round2 price, quantity := qty,
               vat_rate := vatOpt.getD cfg.default_vat_rate,
               id := some db.nextProductId, created_at := some now }],
          nextProductId := db.nextProductId + 1 },
       .ok { sku := sku, name := nm, category := category,
             unit_price_ht := round2 price, quantity := qty,
             vat_rate := vatOpt.getD cfg.default_vat_rate,
             id := none, created_at := some now }) := by
    unfold InventoryManager.add_product
    rw [if_neg hp, if_neg hq, if_neg (by simp [hv])]
    simp only [habs]
    rw [insert_product_of_not_exists now db _ (by simpa using hany)]
    rfl
  refine ⟨_, by rw [hres], rfl,
    { sku := sku, name := nm, category := category,
      unit_price_ht := round2 price, quantity := qty,
      vat_rate := vatOpt.getD cfg.default_vat_rate,
      id := some db.nextProductId, created_at := some now }, ?_, rfl⟩
  rw [hres]
  simp only [SQLiteRepository.get_product_by_sku]
  rw [find?_append_of_none habs]
  simp

/-- Witness for C10: the concrete add of C5 returns a Product with id
none while the stored row got id 1. -/
theorem add_product_returns_id_none_witness :
    ¬ (5:ℤ) < 0 ∧
    (∃ prod, (InventoryManager.add_product sampleCfg "t1" emptyDB "P9" "Neuf" "Cat" 10 5 none).2 =
        .ok prod ∧
      prod.id = none ∧
      (∃ p2, SQLiteRepository.get_product_by_sku
          (InventoryManager.add_product sampleCfg "t1" emptyDB "P9" "Neuf" "Cat" 10 5 none).1 "P9" =
          some p2 ∧
        p2.id = some emptyDB.nextProductId)) :=
  ⟨by decide,
   add_product_returns_id_none sampleCfg "t1" emptyDB "P9" "Neuf" "Cat" 10 5 none
     (by decide) (by decide) rfl rfl⟩

/-- An empty partial update supplies none of the five allowed fields. -/
theorem productUpdates_isEmpty_fields (u : SQLiteRepository.ProductUpdates)
    (h : u.isEmpty = true) :
    u.name = none ∧ u.category = none ∧ u.unit_price_ht = none ∧
      u.vat_rate = none ∧ u.quantity = none := by
  unfold SQLiteRepository.ProductUpdates.isEmpty at h
  simp only [Bool.and_eq_true, Option.isNone_iff_eq_none] at h
  exact ⟨h.1.1.1.1, h.1.1.1.2, h.1.1.2, h.1.2, h.2⟩

/-- Rounding the supplied price does not change which fields are
supplied. -/
theorem productUpdates_isEmpty_map_price (u : SQLiteRepository.ProductUpdates) :
    SQLiteRepository.ProductUpdates.isEmpty
      { name := u.name, category := u.category,
        unit_price_ht := u.unit_price_ht.map round2,
        vat_rate := u.vat_rate, quantity := u.quantity } =
    u.isEmpty := by
  unfold SQLiteRepository.ProductUpdates.isEmpty
  cases hup : u.unit_price_ht <;> simp [hup]

/-- Claim C8: for an existing product and a partial update map whose
supplied values pass validation, update_product applies exactly the
supplied fields among name, category, unit_price_ht (rounded), vat_rate
and quantity; it never changes the sku, id or created_at of the product,
keeps every other row and the table length, and an update supplying none
of the allowed fields succeeds while leaving the store unchanged. -/
theorem update_product_applies_only_supplied_fields (db : DB) (sku : String)
    (u : SQLiteRepository.ProductUpdates) (p : Product)
    (hfind : SQLiteRepository.get_product_by_sku db sku = some p)
    (hp : badPriceUpd u = false) (hq : badQtyUpd u = false)
    (hv : badVatUpd u = false) :
    (∃ p2, (InventoryManager.update_product db sku u).2 = .ok (some p2) ∧
      p2.sku = p.sku ∧ p2.id = p.id ∧ p2.created_at = p.created_at ∧
      p2.name = u.name.getD p.name ∧
      p2.category = u.category.getD p.category ∧
      p2.unit_price_ht = (u.unit_price_ht.map round2).getD p.unit_price_ht ∧
      p2.vat_rate = u.vat_rate.getD p.vat_rate ∧
      p2.quantity = u.quantity.getD p.quantity) ∧
    (InventoryManager.update_product db sku u).1.products.length = db.products.length ∧
    (∀ r ∈ db.products, r.sku ≠ sku →
      r ∈ (InventoryManager.update_product db sku u).1.products) ∧
    (u.isEmpty = true → (InventoryManager.update_product db sku u).1 = db) := by
  have hres : InventoryManager.update_product db sku u =
      (SQLiteRepository.update_product db sku
         { name := u.name, category := u.category,
           unit_price_ht := u.unit_price_ht.map round2,
           vat_rate := u.vat_rate, quantity := u.quantity },
       .ok (SQLiteRepository.get_product_by_sku
         (SQLiteRepository.update_product db sku
           { name := u.name, category := u.category,
             unit_price_ht := u.unit_price_ht.map round2,
             vat_rate := u.vat_rate, quantity := u.quantity }) sku)) := by
    unfold InventoryManager.update_product
    simp only [hfind]
    rw [if_neg (by simp [hp]), if_neg (by simp [hq]), if_neg (by simp [hv])]
  by_cases hEmpty : u.isEmpty = true
  · obtain ⟨h1, h2, h3, h4, h5⟩ := productUpdates_isEmpty_fields u hEmpty
    have hrepo : SQLiteRepository.update_product db sku
        { name := u.name, category := u.category,
          unit_price_ht := u.unit_price_ht.map round2,
          vat_rate := u.vat_rate, quantity := u.quantity } = db := by
      unfold SQLiteRepository.update_product
      rw [if_pos (by rw [productUpdates_isEmpty_map_price]; exact hEmpty)]
    rw [hres, hrepo]
    refine ⟨⟨p, by rw [hfind], rfl, rfl, rfl, ?_, ?_, ?_, ?_, ?_⟩, rfl,
      fun r hr _ => hr, fun _ => rfl⟩
    · rw [h1]; rfl
    · rw [h2]; rfl
    · rw [h3]; rfl
    · rw [h4]; rfl
    · rw [h5]; rfl
  · have hu2f : u.isEmpty = false := by simpa using hEmpty
    have hrepo : SQLiteRepository.update_product db sku
        { name := u.name, category := u.category,
          unit_price_ht := u.unit_price_ht.map round2,
          vat_rate := u.vat_rate, quantity := u.quantity } =
        { db with products := db.products.map (fun r =>
            if r.sku = sku then
              { r with
                  name := u.name.getD r.name,
                  category := u.category.getD r.category,
                  unit_price_ht := (u.unit_price_ht.map round2).getD r.unit_price_ht,
                  vat_rate := u.vat_rate.getD r.vat_rate,
                  quantity := u.quantity.getD r.quantity }
            else r) } := by
      unfold SQLiteRepository.update_product
      rw [if_neg (by rw [productUpdates_isEmpty_map_price, hu2f]; simp)]
    have hget : SQLiteRepository.get_product_by_sku
        ({ db with products := db.products.map (fun r =>
            if r.sku = sku then
              { r with
                  name := u.name.getD r.name,
                  category := u.category.getD r.category,
                  unit_price_ht := (u.unit_price_ht.map round2).getD r.unit_price_ht,
                  vat_rate := u.vat_rate.getD r.vat_rate,
                  quantity := u.quantity.getD r.quantity }
            else r) }) sku =
        some { p with
                name := u.name.getD p.name,
                category := u.category.getD p.category,
                unit_price_ht := (u.unit_price_ht.map round2).getD p.unit_price_ht,
                vat_rate := u.vat_rate.getD p.vat_rate,
                quantity := u.quantity.getD p.quantity } := by
      simp only [SQLiteRepository.get_product_by_sku]
      rw [find?_map_ite_sku sku (fun r =>
        { r with
            name := u.name.getD r.name,
            category := u.category.getD r.category,
            unit_price_ht := (u.unit_price_ht.map round2).getD r.unit_price_ht,
            vat_rate := u.vat_rate.getD r.vat_rate,
            quantity := u.quantity.getD r.quantity }) (fun r => rfl) db.products]
      have hfind2 : db.products.find? (fun r => r.sku == sku) = some p := hfind
      rw [hfind2]
      rfl
    rw [hres, hrepo]
    refine ⟨⟨{ p with
        name := u.name.getD p.name,
        category := u.category.getD p.category,
        unit_price_ht := (u.unit_price_ht.map round2).getD p.unit_price_ht,
        vat_rate := u.vat_rate.getD p.vat_rate,
        quantity := u.quantity.getD p.quantity },
      by rw [hget], rfl, rfl, rfl, rfl, rfl, rfl, rfl, rfl⟩,
      by simp, ?_, fun habs => absurd habs hEmpty⟩
    intro r hr hne
    exact List.mem_map.mpr ⟨r, hr, by rw [if_neg hne]⟩

/-- Witness for C8: updating only the name of the stored product; the
hypotheses hold at this input. -/
theorem update_product_applies_only_supplied_fields_witness :
    badPriceUpd sampleUpd = false ∧
    ((∃ p2, (InventoryManager.update_product sampleDB "P1" sampleUpd).2 = .ok (some p2) ∧
      p2.sku = sampleP1.sku ∧ p2.id = sampleP1.id ∧ p2.created_at = sampleP1.created_at ∧
      p2.name = sampleUpd.name.getD sampleP1.name ∧
      p2.category = sampleUpd.category.getD sampleP1.category ∧
      p2.unit_price_ht = (sampleUpd.unit_price_ht.map round2).getD sampleP1.unit_price_ht ∧
      p2.vat_rate = sampleUpd.vat_rate.getD sampleP1.vat_rate ∧
      p2.quantity = sampleUpd.quantity.getD sampleP1.quantity) ∧
    (InventoryManager.update_product sampleDB "P1" sampleUpd).1.products.length =
      sampleDB.products.length ∧
    (∀ r ∈ sampleDB.products, r.sku ≠ "P1" →
      r ∈ (InventoryManager.update_product sampleDB "P1" sampleUpd).1.products) ∧
    (sampleUpd.isEmpty = true →
      (InventoryManager.update_product sampleDB "P1" sampleUpd).1 = sampleDB)) :=
  ⟨rfl, update_product_applies_only_supplied_fields sampleDB "P1" sampleUpd sampleP1
    rfl rfl rfl rfl⟩

/-- Claim C9: the batch import is not all-or-nothing. With reset off,
when the records after a fully successful prefix hit a failing insert
(for instance a SKU already stored), the operation returns the error but
the final state is exactly the one the prefix inserts produced: every
earlier record of the same batch stays persisted, because each insert
commits in its own connection scope. -/
theorem import_batch_earlier_rows_persist (now : String) (db db1 : DB)
    (pre : List ImportRec) (bad : ImportRec) (rest : List ImportRec)
    (k : Nat) (e : Err)
    (hpre : InventoryManager.initGo now db pre 0 = (db1, .ok k))
    (hbad : SQLiteRepository.insert_product now db1 (productOfRec now bad) =
      (db1, .error e)) :
    InventoryManager.initialize_from_json now db (pre ++ bad :: rest) false =
      (db1, .error e) := by
  have h0 : InventoryManager.initialize_from_json now db (pre ++ bad :: rest) false =
      InventoryManager.initGo now db (pre ++ bad :: rest) 0 := rfl
  rw [h0, initGo_append now pre (bad :: rest) db db1 0 k hpre]
  simp only [InventoryManager.initGo]
  rw [hbad]

/-- Witness for C9: importing the same record twice into the empty
database keeps the first copy persisted and returns the duplicate-SKU
error of the second insert. -/
theorem import_batch_earlier_rows_persist_witness :
    InventoryManager.initGo "t1" emptyDB [recA] 0 = (dbAfterRecA, .ok 1) ∧
    InventoryManager.initialize_from_json "t1" emptyDB ([recA] ++ recA :: []) false =
      (dbAfterRecA, .error { kind := .database, msg := "Contrainte violée (SKU unique ?)" }) :=
  ⟨rfl,
   import_batch_earlier_rows_persist "t1" emptyDB dbAfterRecA [recA] recA [] 1
     { kind := .database, msg := "Contrainte violée (SKU unique ?)" } rfl rfl⟩
